import Mathlib

/-!
Shallow embedding of the actix gateway layer of this repository:
`src/actix/api/snapshot_api.rs` and `src/actix/api/collections_api.rs`.

External collaborators (the storage dispatcher, the `helpers` module, the
filesystem) are modelled as explicit parameters: an `Executor` record of
oracles for the storage-layer calls, a filesystem predicate for
`NamedFile::open`, and elapsed time as a plain argument.  Spawned tokio
tasks are modelled by evaluating the task body eagerly and recording an
event trace; a body that reaches `unwrap` on an `Err` value is modelled as
a panicking task (`Option.none`), and awaiting a panicked task followed by
`unwrap` yields the `panicked` handler outcome.
-/

namespace Gateway

/-- Filesystem paths, as plain strings (`std::path::Path`). -/
abbrev FsPath := String

/-- URLs (`reqwest::Url`), as plain strings. -/
abbrev Url := String

/-- `storage::content_manager::errors::StorageError` (external crate): the
error taxonomy of the storage layer, carrying a message. -/
inductive StorageError where
  | notFound (description : String)
  | serviceError (description : String)
  | badInput (description : String)
  | timeout (description : String)
deriving DecidableEq, Repr

/-- `collection::...::CollectionError` (external crate), as seen through
`Collection::get_snapshot_path`. -/
inductive CollectionError where
  | notFound (what : String)
  | serviceError (description : String)
deriving DecidableEq, Repr

/-- An I/O error produced by `NamedFile::open` on a missing path. -/
inductive IoError where
  | notFound (path : FsPath)
deriving DecidableEq, Repr

/-- An open file handle (`actix_files::NamedFile`), identified by the path
it was opened from. -/
structure File where
  path : FsPath
deriving DecidableEq, Repr

/-- An `actix_web::Error`, as produced by the error conversions used in
`snapshot_api.rs` (`storage_into_actix_error`, `collection_into_actix_error`,
`ErrorInternalServerError`, and the `From<io::Error>` conversion behind `?`). -/
inductive ActixError where
  | storage (e : StorageError)
  | collection (e : CollectionError)
  | io (e : IoError)
  | internalServer (msg : String)
deriving DecidableEq, Repr

/-- The observable outcome of a file-download handler: a served file, an
actix error response, or a panic (an `unwrap` on an `Err` value). -/
inductive HandlerOutcome where
  | ok (f : File)
  | error (e : ActixError)
  | panicked
deriving DecidableEq, Repr

/-- Events a download handler may perform, in order: spawning the executor
task (`tokio::spawn`), awaiting it (`task.await`), opening a file
(`NamedFile::open`), or sending the task an abort signal
(`JoinHandle::abort`; the capability exists in tokio but the code never
uses it). -/
inductive Event where
  | spawnTask
  | awaitTask
  | openFile (p : FsPath)
  | abortTask
deriving DecidableEq, Repr

/-- A collection handle as returned by `dispatcher.get_collection`: the only
method the gateway calls on it is `get_snapshot_path`. -/
structure Collection where
  snapshotPath : String → Except CollectionError FsPath

/-- The external storage layer (`Dispatcher` / `TableOfContent` calls made
by the download handlers): `dispatcher.get_collection` and
`get_full_snapshot_path`. -/
structure Executor where
  getCollection : String → Except StorageError Collection
  fullSnapshotPath : String → Except StorageError FsPath

/-- The environment of a download request: the storage layer plus the local
filesystem (which paths exist for `NamedFile::open`). -/
structure Env where
  exec : Executor
  fs : FsPath → Bool

/-- `NamedFile::open(p)`: succeeds with a handle iff the path exists,
otherwise fails with an I/O not-found error. -/
def namedFileOpen (fs : FsPath → Bool) (p : FsPath) : Except IoError File :=
  if fs p then .ok ⟨p⟩ else .error (.notFound p)

/-- `Ok(NamedFile::open(p)?)` as a handler outcome: the `?` converts the
I/O error into an actix error. -/
def openOutcome (fs : FsPath → Bool) (p : FsPath) : HandlerOutcome :=
  match namedFileOpen fs p with
  | .ok f => .ok f
  | .error e => .error (.io e)

/-- Body of the task spawned by `do_get_snapshot` (snapshot_api.rs lines
111-123): fetch the collection, then resolve the snapshot path, calling
`.unwrap()` on each fallible step.  `none` means the body panicked (it
reached `unwrap` on an `Err`). -/
def getSnapshotTaskBody (env : Env) (collectionName snapshotName : String) :
    Option FsPath :=
  match env.exec.getCollection collectionName with
  | .error _ => none
  | .ok collection =>
    match collection.snapshotPath snapshotName with
    | .error _ => none
    | .ok p => some p

/-- `do_get_snapshot` (snapshot_api.rs lines 101-131): spawn the executor
task, then, if `wait`, `task.await.unwrap()` (panicking if the task
panicked) and open the resolved path; otherwise open the literal path
`"not_found"`.  Returns the event trace together with the outcome. -/
def do_get_snapshot (env : Env) (collectionName snapshotName : String)
    (wait : Bool) : List Event × HandlerOutcome :=
  let body := getSnapshotTaskBody env collectionName snapshotName
  if wait then
    match body with
    | none => ([.spawnTask, .awaitTask], .panicked)
    | some p => ([.spawnTask, .awaitTask, .openFile p], openOutcome env.fs p)
  else
    ([.spawnTask, .openFile "not_found"], openOutcome env.fs "not_found")

/-- `do_get_full_snapshot` (snapshot_api.rs lines 54-74): spawn the task
running `get_full_snapshot_path`, then, if `wait`, await it (its body
returns a `Result` and never panics, so the `JoinError` branch at line 66
is not reached), map a storage error through `storage_into_actix_error`
and the `?`, and open the resolved path; otherwise open the literal path
`"not_found"`. -/
def do_get_full_snapshot (env : Env) (snapshotName : String) (wait : Bool) :
    List Event × HandlerOutcome :=
  let body := env.exec.fullSnapshotPath snapshotName
  if wait then
    match body with
    | .error e => ([.spawnTask, .awaitTask], .error (.storage e))
    | .ok p => ([.spawnTask, .awaitTask, .openFile p], openOutcome env.fs p)
  else
    ([.spawnTask, .openFile "not_found"], openOutcome env.fs "not_found")

/-- `actix_multipart::form::tempfile::TempFile`: the uploaded temp file;
only its optional caller-supplied `file_name` is inspected by the gateway
(the byte contents are opaque). -/
structure TempFile where
  fileName : Option String
deriving DecidableEq, Repr

/-- The slice of `TableOfContent` the upload path uses: `toc.snapshots_path()`. -/
structure Toc where
  snapshotsPath : FsPath
deriving DecidableEq, Repr

/-- The filesystem effects of `do_save_uploaded_snapshot`: persisting the
temp file (`snapshot.file.persist`, its `PersistError` converted to a
`StorageError` by the `?`), canonicalizing a path (`path.canonicalize`,
its `io::Error` likewise converted), and `Url::from_file_path` (which
fails on a non-absolute path). -/
structure UploadFsOps where
  persist : FsPath → Except StorageError Unit
  canonicalize : FsPath → Except StorageError FsPath
  urlFromFilePath : FsPath → Option Url

/-- `Path::join` on string paths. -/
def joinPath (a b : FsPath) : FsPath := a ++ "/" ++ b

/-- `do_save_uploaded_snapshot` (snapshot_api.rs lines 76-98): pick the
caller-supplied file name or a fresh UUID, build
`snapshots_path/collection_name/filename`, persist the temp file there,
canonicalize, and convert the absolute path to a file URL.  The fresh
UUID produced by `Uuid::new_v4().to_string()` is passed in as `freshUuid`. -/
def do_save_uploaded_snapshot (fsOps : UploadFsOps) (toc : Toc)
    (collectionName : String) (snapshot : TempFile) (freshUuid : String) :
    Except StorageError Url :=
  let filename := snapshot.fileName.getD freshUuid
  let path := joinPath (joinPath toc.snapshotsPath collectionName) filename
  match fsOps.persist path with
  | .error e => .error e
  | .ok _ =>
    match fsOps.canonicalize path with
    | .error e => .error e
    | .ok absolutePath =>
      match fsOps.urlFromFilePath absolutePath with
      | none => .error (.serviceError
          ("Failed to convert path to URL: " ++ absolutePath))
      | some url => .ok url

/-- `collection::operations::snapshot_ops::SnapshotPriority` (external). -/
inductive SnapshotPriority where
  | noSync
  | snapshot
  | replica
deriving DecidableEq, Repr

/-- Query parameters of the upload endpoint (`SnapshotUploadingParam`). -/
structure SnapshotUploadingParam where
  wait : Option Bool
  priority : Option SnapshotPriority
deriving DecidableEq, Repr

/-- Query parameters of the other snapshot endpoints (`SnapshottingParam`). -/
structure SnapshottingParam where
  wait : Option Bool
deriving DecidableEq, Repr

/-- `collection::operations::snapshot_ops::SnapshotRecover`: the recover
request assembled by `upload_snapshot` and accepted by
`recover_from_snapshot`. -/
structure SnapshotRecover where
  location : Url
  priority : Option SnapshotPriority
deriving DecidableEq, Repr

/-- A wire response of the gateway: either the JSON envelope produced by
`process_response` (result plus elapsed-time field), or a raw actix
responder (the `NamedFile` / error / panic of the download endpoints),
which carries no timing field. -/
inductive WireResponse (α : Type) where
  | envelope (result : Except StorageError α) (timeMs : Nat)
  | rawFile (outcome : HandlerOutcome)

/-- Modelled from the spec: `process_response` from `crate::actix::helpers`
(not under src/) wraps a storage result together with the elapsed time
since the handler's `Instant::now()` into the JSON envelope — a `Success`
payload or a `Failure` with the error message, each with the same timing
field. -/
def process_response {α : Type} (result : Except StorageError α)
    (elapsedMs : Nat) : WireResponse α :=
  .envelope result elapsedMs

/-- Whether a wire response carries the elapsed-time field. -/
def hasTiming {α : Type} : WireResponse α → Bool
  | .envelope _ _ => true
  | .rawFile _ => false

/-- `list_snapshots` (snapshot_api.rs lines 133-145): `wait` defaults to
`true`; the listing call `do_list_snapshots` (from `crate::common::collections`,
not under src/) is an oracle. -/
def list_snapshots (doListSnapshots : String → Bool → Except StorageError (List String))
    (collectionName : String) (params : SnapshottingParam) (elapsedMs : Nat) :
    WireResponse (List String) :=
  let wait := params.wait.getD true
  process_response (doListSnapshots collectionName wait) elapsedMs

/-- `create_snapshot` (snapshot_api.rs lines 147-159): `wait` defaults to
`true`; `do_create_snapshot` is an oracle. -/
def create_snapshot (doCreateSnapshot : String → Bool → Except StorageError String)
    (collectionName : String) (params : SnapshottingParam) (elapsedMs : Nat) :
    WireResponse String :=
  let wait := params.wait.getD true
  process_response (doCreateSnapshot collectionName wait) elapsedMs

/-- `upload_snapshot` (snapshot_api.rs lines 161-191): phase 1 saves the
uploaded file via `do_save_uploaded_snapshot`; on failure the handler
returns that error through `process_response` immediately.  On success it
builds a `SnapshotRecover` from the returned location and the priority
parameter and invokes `do_recover_from_snapshot` (storage crate, not under
src/ — an oracle).  The second component records every
`do_recover_from_snapshot` invocation (collection name, request, wait). -/
def upload_snapshot
    (doRecoverFromSnapshot : String → SnapshotRecover → Bool → Except StorageError Bool)
    (fsOps : UploadFsOps) (toc : Toc) (collectionName : String)
    (form : TempFile) (params : SnapshotUploadingParam) (freshUuid : String)
    (elapsedMs : Nat) :
    WireResponse Bool × List (String × SnapshotRecover × Bool) :=
  let wait := params.wait.getD true
  match do_save_uploaded_snapshot fsOps toc collectionName form freshUuid with
  | .error err => (process_response (.error err) elapsedMs, [])
  | .ok location =>
    let snapshotRecover : SnapshotRecover := ⟨location, params.priority⟩
    ((process_response (doRecoverFromSnapshot collectionName snapshotRecover wait) elapsedMs),
      [(collectionName, snapshotRecover, wait)])

/-- `recover_from_snapshot` (snapshot_api.rs lines 193-212): `wait`
defaults to `true`; `do_recover_from_snapshot` is an oracle. -/
def recover_from_snapshot
    (doRecoverFromSnapshot : String → SnapshotRecover → Bool → Except StorageError Bool)
    (collectionName : String) (request : SnapshotRecover)
    (params : SnapshottingParam) (elapsedMs : Nat) : WireResponse Bool :=
  let wait := params.wait.getD true
  process_response (doRecoverFromSnapshot collectionName request wait) elapsedMs

/-- `get_snapshot` (snapshot_api.rs lines 214-223): `wait` defaults to
`true`; the handler returns `do_get_snapshot`'s result directly as a raw
file responder — it never calls `process_response` and measures no timing. -/
def get_snapshot (env : Env) (collectionName snapshotName : String)
    (params : SnapshottingParam) : WireResponse Empty :=
  let wait := params.wait.getD true
  .rawFile (do_get_snapshot env collectionName snapshotName wait).2

/-- `list_full_snapshots` (snapshot_api.rs lines 225-234): `wait` defaults
to `true`; `do_list_full_snapshots` (storage crate) is an oracle. -/
def list_full_snapshots (doListFullSnapshots : Bool → Except StorageError (List String))
    (params : SnapshottingParam) (elapsedMs : Nat) : WireResponse (List String) :=
  let wait := params.wait.getD true
  process_response (doListFullSnapshots wait) elapsedMs

/-- `create_full_snapshot` (snapshot_api.rs lines 236-245): `wait` defaults
to `true`; `do_create_full_snapshot` (storage crate) is an oracle. -/
def create_full_snapshot (doCreateFullSnapshot : Bool → Except StorageError String)
    (params : SnapshottingParam) (elapsedMs : Nat) : WireResponse String :=
  let wait := params.wait.getD true
  process_response (doCreateFullSnapshot wait) elapsedMs

/-- `get_full_snapshot` (snapshot_api.rs lines 247-256): `wait` defaults to
`true`; returns `do_get_full_snapshot`'s result directly as a raw file
responder, with no `process_response` and no timing. -/
def get_full_snapshot (env : Env) (snapshotName : String)
    (params : SnapshottingParam) : WireResponse Empty :=
  let wait := params.wait.getD true
  .rawFile (do_get_full_snapshot env snapshotName wait).2

/-- `delete_full_snapshot` (snapshot_api.rs lines 258-269): `wait` defaults
to `true`; `do_delete_full_snapshot` (storage crate) is an oracle. -/
def delete_full_snapshot (doDeleteFullSnapshot : String → Bool → Except StorageError Bool)
    (snapshotName : String) (params : SnapshottingParam) (elapsedMs : Nat) :
    WireResponse Bool :=
  let wait := params.wait.getD true
  process_response (doDeleteFullSnapshot snapshotName wait) elapsedMs

/-- `delete_collection_snapshot` (snapshot_api.rs lines 271-284): `wait`
defaults to `true`; `do_delete_collection_snapshot` (storage crate) is an
oracle. -/
def delete_collection_snapshot
    (doDeleteCollectionSnapshot : String → String → Bool → Except StorageError Bool)
    (collectionName snapshotName : String) (params : SnapshottingParam)
    (elapsedMs : Nat) : WireResponse Bool :=
  let wait := params.wait.getD true
  process_response (doDeleteCollectionSnapshot collectionName snapshotName wait) elapsedMs

/-- `std::time::Duration`, as whole seconds plus a nanosecond remainder. -/
structure Duration where
  secs : Nat
  nanos : Nat
deriving DecidableEq, Repr

/-- `Duration::from_secs`. -/
def Duration.from_secs (n : Nat) : Duration := ⟨n, 0⟩

/-- `WaitTimeout` (collections_api.rs lines 17-20): the optional `timeout`
query parameter, in whole seconds (`u64`). -/
structure WaitTimeout where
  timeout : Option Nat
deriving DecidableEq, Repr

/-- `WaitTimeout::timeout` (collections_api.rs lines 22-26): maps the raw
seconds value through `Duration::from_secs`.  (The Rust method shares the
field's name; here it is called `timeoutDuration`.) -/
def WaitTimeout.timeoutDuration (w : WaitTimeout) : Option Duration :=
  w.timeout.map Duration.from_secs

/-- `CreateCollection` request body (external crate), opaque to the gateway. -/
structure CreateCollection where
  payloadId : Nat
deriving DecidableEq, Repr

/-- `UpdateCollection` request body (external crate), opaque to the gateway. -/
structure UpdateCollection where
  payloadId : Nat
deriving DecidableEq, Repr

/-- `ChangeAliasesOperation` request body (external crate), opaque. -/
structure ChangeAliasesOperation where
  payloadId : Nat
deriving DecidableEq, Repr

/-- `ClusterOperations` request body (external crate), opaque. -/
structure ClusterOperations where
  payloadId : Nat
deriving DecidableEq, Repr

/-- `CreateCollectionOperation::new(name, operation)`. -/
structure CreateCollectionOperation where
  name : String
  op : CreateCollection
deriving DecidableEq, Repr

/-- `UpdateCollectionOperation::new(name, operation)`. -/
structure UpdateCollectionOperation where
  name : String
  op : UpdateCollection
deriving DecidableEq, Repr

/-- `DeleteCollectionOperation(name)`. -/
structure DeleteCollectionOperation where
  name : String
deriving DecidableEq, Repr

/-- `storage::content_manager::collection_meta_ops::CollectionMetaOperations`:
the tagged union of collection-meta operations submitted to the dispatcher. -/
inductive CollectionMetaOperations where
  | createCollection (op : CreateCollectionOperation)
  | updateCollection (op : UpdateCollectionOperation)
  | deleteCollection (op : DeleteCollectionOperation)
  | changeAliases (op : ChangeAliasesOperation)
deriving DecidableEq, Repr

/-- A recorded call to `dispatcher.submit_collection_meta_op`: the
operation and the `Option<Duration>` wait timeout passed with it. -/
abbrev SubmittedOp := CollectionMetaOperations × Option Duration

/-- `create_collection` (collections_api.rs lines 61-80): build the
`CreateCollection` meta-operation and submit it with `query.timeout()`;
the dispatcher's `submit_collection_meta_op` is an oracle.  The second
component records every submission made. -/
def create_collection
    (submit : CollectionMetaOperations → Option Duration → Except StorageError Bool)
    (name : String) (operation : CreateCollection) (query : WaitTimeout)
    (elapsedMs : Nat) : WireResponse Bool × List SubmittedOp :=
  let op := CollectionMetaOperations.createCollection ⟨name, operation⟩
  (process_response (submit op query.timeoutDuration) elapsedMs,
    [(op, query.timeoutDuration)])

/-- `update_collection` (collections_api.rs lines 82-101). -/
def update_collection
    (submit : CollectionMetaOperations → Option Duration → Except StorageError Bool)
    (name : String) (operation : UpdateCollection) (query : WaitTimeout)
    (elapsedMs : Nat) : WireResponse Bool × List SubmittedOp :=
  let op := CollectionMetaOperations.updateCollection ⟨name, operation⟩
  (process_response (submit op query.timeoutDuration) elapsedMs,
    [(op, query.timeoutDuration)])

/-- `delete_collection` (collections_api.rs lines 103-118). -/
def delete_collection
    (submit : CollectionMetaOperations → Option Duration → Except StorageError Bool)
    (name : String) (query : WaitTimeout) (elapsedMs : Nat) :
    WireResponse Bool × List SubmittedOp :=
  let op := CollectionMetaOperations.deleteCollection ⟨name⟩
  (process_response (submit op query.timeoutDuration) elapsedMs,
    [(op, query.timeoutDuration)])

/-- `update_aliases` (collections_api.rs lines 120-134). -/
def update_aliases
    (submit : CollectionMetaOperations → Option Duration → Except StorageError Bool)
    (operation : ChangeAliasesOperation) (query : WaitTimeout) (elapsedMs : Nat) :
    WireResponse Bool × List SubmittedOp :=
  let op := CollectionMetaOperations.changeAliases operation
  (process_response (submit op query.timeoutDuration) elapsedMs,
    [(op, query.timeoutDuration)])

/-- `update_collection_cluster` (collections_api.rs lines 147-167): passes
`query.timeout()` to `do_update_collection_cluster` (from
`crate::common::collections`, not under src/ — an oracle).  The second
component records every call (collection name, operation, wait timeout). -/
def update_collection_cluster
    (doUpdateCollectionCluster :
      String → ClusterOperations → Option Duration → Except StorageError Bool)
    (name : String) (operation : ClusterOperations) (query : WaitTimeout)
    (elapsedMs : Nat) :
    WireResponse Bool × List (String × ClusterOperations × Option Duration) :=
  (process_response (doUpdateCollectionCluster name operation query.timeoutDuration)
      elapsedMs,
    [(name, operation, query.timeoutDuration)])

/-- `get_collections` (collections_api.rs lines 28-33): wraps the infallible
listing in `Ok` and passes it through `process_response`. -/
def get_collections (doListCollections : List String) (elapsedMs : Nat) :
    WireResponse (List String) :=
  process_response (.ok doListCollections) elapsedMs

/-- `get_aliases` (collections_api.rs lines 35-40). -/
def get_aliases (doListAliases : Except StorageError (List String))
    (elapsedMs : Nat) : WireResponse (List String) :=
  process_response doListAliases elapsedMs

/-- `get_collection` (collections_api.rs lines 42-48). -/
def get_collection (doGetCollection : String → Except StorageError String)
    (name : String) (elapsedMs : Nat) : WireResponse String :=
  process_response (doGetCollection name) elapsedMs

/-- `get_collection_aliases` (collections_api.rs lines 50-59). -/
def get_collection_aliases
    (doListCollectionAliases : String → Except StorageError (List String))
    (name : String) (elapsedMs : Nat) : WireResponse (List String) :=
  process_response (doListCollectionAliases name) elapsedMs

/-- `get_cluster_info` (collections_api.rs lines 136-145). -/
def get_cluster_info (doGetCollectionCluster : String → Except StorageError String)
    (name : String) (elapsedMs : Nat) : WireResponse String :=
  process_response (doGetCollectionCluster name) elapsedMs

/-- A storage layer in which no collection and no full snapshot exists. -/
def execMissingCollection : Executor :=
  ⟨fun name => .error (.notFound ("Collection " ++ name ++ " does not exist")),
   fun name => .error (.notFound ("Snapshot " ++ name ++ " does not exist"))⟩

/-- A request environment with `execMissingCollection` and an empty local
filesystem. -/
def envMissingCollection : Env := ⟨execMissingCollection, fun _ => false⟩

/-- A storage layer in which every collection exists but no snapshot path
can be resolved. -/
def execSnapshotPathError : Executor :=
  ⟨fun _ => .ok ⟨fun name => .error (.notFound ("Snapshot " ++ name ++ " not found"))⟩,
   fun name => .error (.notFound name)⟩

/-- A request environment with `execSnapshotPathError` and an empty local
filesystem. -/
def envSnapshotPathError : Env := ⟨execSnapshotPathError, fun _ => false⟩

/-- Upload filesystem operations whose `persist` step fails with an I/O
error. -/
def failingUploadFsOps : UploadFsOps :=
  ⟨fun _ => .error (.serviceError "No space left on device"),
   fun p => .ok p,
   fun p => some ("file://" ++ p)⟩

/-- Upload filesystem operations on which every step succeeds, with
canonicalization the identity and file URLs formed by prefixing
`file://`. -/
def okUploadFsOps : UploadFsOps :=
  ⟨fun _ => .ok (),
   fun p => .ok p,
   fun p => some ("file://" ++ p)⟩

/-- Claim C1: for every snapshot-download request with wait=false, the
outcome of `do_get_snapshot` and `do_get_full_snapshot` is computed without
awaiting the spawned task (`awaitTask` never appears in the trace) and is
identical under any two executors, so the response never depends on what
the Executor task produces. -/
theorem nonblocking_download_independent_of_executor
    (e1 e2 : Executor) (fs : FsPath → Bool) (c s : String) :
    (do_get_snapshot ⟨e1, fs⟩ c s false).2 = (do_get_snapshot ⟨e2, fs⟩ c s false).2 ∧
    (do_get_full_snapshot ⟨e1, fs⟩ s false).2 = (do_get_full_snapshot ⟨e2, fs⟩ s false).2 ∧
    Event.awaitTask ∉ (do_get_snapshot ⟨e1, fs⟩ c s false).1 ∧
    Event.awaitTask ∉ (do_get_full_snapshot ⟨e1, fs⟩ s false).1 := by
  refine ⟨rfl, rfl, ?_, ?_⟩ <;> simp [do_get_snapshot, do_get_full_snapshot]

/-- Claim C2: for every snapshot-download request with wait=false (and no
file literally named `not_found` in the working directory),
`do_get_snapshot` and `do_get_full_snapshot` return exactly the result of
`NamedFile::open("not_found")`: a generic I/O not-found error, regardless
of the collection name, the snapshot name, or the executor's state. -/
theorem nonblocking_download_not_found_error
    (env : Env) (c s : String) (h : env.fs "not_found" = false) :
    (do_get_snapshot env c s false).2 = .error (.io (.notFound "not_found")) ∧
    (do_get_full_snapshot env s false).2 = .error (.io (.notFound "not_found")) ∧
    (do_get_snapshot env c s false).2 = openOutcome env.fs "not_found" ∧
    (do_get_full_snapshot env s false).2 = openOutcome env.fs "not_found" := by
  refine ⟨?_, ?_, rfl, rfl⟩ <;>
    simp [do_get_snapshot, do_get_full_snapshot, openOutcome, namedFileOpen, h]

/-- Witness for C2: in the environment with an empty filesystem and no
collections, the non-blocking download of a concrete snapshot yields the
I/O not-found error for the literal path `not_found`. -/
theorem nonblocking_download_not_found_error_witness :
    envMissingCollection.fs "not_found" = false ∧
    (do_get_snapshot envMissingCollection "my_collection" "snap.tar" false).2
      = .error (.io (.notFound "not_found")) :=
  ⟨rfl, (nonblocking_download_not_found_error envMissingCollection
    "my_collection" "snap.tar" rfl).1⟩

/-- Claim C3: if phase 1 of an upload (`do_save_uploaded_snapshot`) fails,
`upload_snapshot` returns that failure through `process_response`
immediately and records no call to `do_recover_from_snapshot`. -/
theorem upload_phase1_failure_short_circuits
    (doRecoverFromSnapshot : String → SnapshotRecover → Bool → Except StorageError Bool)
    (fsOps : UploadFsOps) (toc : Toc) (c : String) (form : TempFile)
    (params : SnapshotUploadingParam) (freshUuid : String) (elapsedMs : Nat)
    (err : StorageError)
    (h : do_save_uploaded_snapshot fsOps toc c form freshUuid = .error err) :
    upload_snapshot doRecoverFromSnapshot fsOps toc c form params freshUuid elapsedMs
      = (process_response (.error err) elapsedMs, []) := by
  simp [upload_snapshot, h]

/-- Witness for C3: with a `persist` step that fails with an I/O error, the
upload handler returns exactly that failure and the recover call list is
empty. -/
theorem upload_phase1_failure_short_circuits_witness :
    upload_snapshot (fun _ _ _ => .ok true) failingUploadFsOps ⟨"/qdrant/snapshots"⟩
        "my_collection" ⟨none⟩ ⟨some true, none⟩ "uuid-1234" 7
      = (process_response (.error (.serviceError "No space left on device")) 7, []) :=
  upload_phase1_failure_short_circuits _ _ _ _ _ _ _ _ _ rfl

/-- Claim C4: every successful `do_save_uploaded_snapshot` returns the file
URL of the canonicalized path `snapshots_root/collection_name/filename`,
where the filename is the caller-supplied name when present and the fresh
UUID otherwise (`form.fileName.getD freshUuid`): the persist, canonicalize
and URL-conversion steps all succeeded on exactly that path. -/
theorem saved_snapshot_location_is_canonicalized_url
    (fsOps : UploadFsOps) (toc : Toc) (c : String) (form : TempFile)
    (freshUuid : String) (url : Url)
    (h : do_save_uploaded_snapshot fsOps toc c form freshUuid = .ok url) :
    ∃ absolutePath,
      fsOps.persist (joinPath (joinPath toc.snapshotsPath c)
        (form.fileName.getD freshUuid)) = .ok () ∧
      fsOps.canonicalize (joinPath (joinPath toc.snapshotsPath c)
        (form.fileName.getD freshUuid)) = .ok absolutePath ∧
      fsOps.urlFromFilePath absolutePath = some url := by
  simp only [do_save_uploaded_snapshot] at h
  split at h
  next e hper => simp at h
  next u hper =>
    split at h
    next e hcan => simp at h
    next absolutePath hcan =>
      split at h
      next hurl => simp at h
      next u2 hurl =>
        simp only [Except.ok.injEq] at h
        subst h
        cases u
        exact ⟨absolutePath, hper, hcan, hurl⟩

/-- Witness for C4: saving an upload with the caller-supplied name
`backup.snapshot` under root `/qdrant/snapshots` and collection
`my_collection` succeeds, and the theorem recovers the canonicalized path
and its file URL. -/
theorem saved_snapshot_location_witness :
    ∃ absolutePath,
      okUploadFsOps.persist (joinPath (joinPath (Toc.mk "/qdrant/snapshots").snapshotsPath
        "my_collection") ((TempFile.mk (some "backup.snapshot")).fileName.getD "uuid-1"))
        = .ok () ∧
      okUploadFsOps.canonicalize (joinPath (joinPath (Toc.mk "/qdrant/snapshots").snapshotsPath
        "my_collection") ((TempFile.mk (some "backup.snapshot")).fileName.getD "uuid-1"))
        = .ok absolutePath ∧
      okUploadFsOps.urlFromFilePath absolutePath
        = some "file:///qdrant/snapshots/my_collection/backup.snapshot" :=
  saved_snapshot_location_is_canonicalized_url okUploadFsOps ⟨"/qdrant/snapshots"⟩
    "my_collection" ⟨some "backup.snapshot"⟩ "uuid-1"
    "file:///qdrant/snapshots/my_collection/backup.snapshot" rfl

/-- Claim C5: for every snapshot-lifecycle endpoint (list, create, upload,
recover, download, delete, and the full-node variants), an absent `wait`
query parameter is treated as wait=true: each handler with `wait = none`
passes `true` to its operation (equivalently, behaves exactly as with
`wait = some true`). -/
theorem snapshot_wait_defaults_to_true
    (doListSnapshots : String → Bool → Except StorageError (List String))
    (doCreateSnapshot : String → Bool → Except StorageError String)
    (doRecoverFromSnapshot : String → SnapshotRecover → Bool → Except StorageError Bool)
    (doListFullSnapshots : Bool → Except StorageError (List String))
    (doCreateFullSnapshot : Bool → Except StorageError String)
    (doDeleteFullSnapshot : String → Bool → Except StorageError Bool)
    (doDeleteCollectionSnapshot : String → String → Bool → Except StorageError Bool)
    (fsOps : UploadFsOps) (toc : Toc) (env : Env) (c s : String)
    (form : TempFile) (request : SnapshotRecover)
    (prio : Option SnapshotPriority) (freshUuid : String) (elapsedMs : Nat) :
    list_snapshots doListSnapshots c ⟨none⟩ elapsedMs
      = process_response (doListSnapshots c true) elapsedMs ∧
    create_snapshot doCreateSnapshot c ⟨none⟩ elapsedMs
      = process_response (doCreateSnapshot c true) elapsedMs ∧
    upload_snapshot doRecoverFromSnapshot fsOps toc c form ⟨none, prio⟩ freshUuid elapsedMs
      = upload_snapshot doRecoverFromSnapshot fsOps toc c form ⟨some true, prio⟩
          freshUuid elapsedMs ∧
    recover_from_snapshot doRecoverFromSnapshot c request ⟨none⟩ elapsedMs
      = process_response (doRecoverFromSnapshot c request true) elapsedMs ∧
    get_snapshot env c s ⟨none⟩ = .rawFile (do_get_snapshot env c s true).2 ∧
    list_full_snapshots doListFullSnapshots ⟨none⟩ elapsedMs
      = process_response (doListFullSnapshots true) elapsedMs ∧
    create_full_snapshot doCreateFullSnapshot ⟨none⟩ elapsedMs
      = process_response (doCreateFullSnapshot true) elapsedMs ∧
    get_full_snapshot env s ⟨none⟩ = .rawFile (do_get_full_snapshot env s true).2 ∧
    delete_full_snapshot doDeleteFullSnapshot s ⟨none⟩ elapsedMs
      = process_response (doDeleteFullSnapshot s true) elapsedMs ∧
    delete_collection_snapshot doDeleteCollectionSnapshot c s ⟨none⟩ elapsedMs
      = process_response (doDeleteCollectionSnapshot c s true) elapsedMs :=
  ⟨rfl, rfl, rfl, rfl, rfl, rfl, rfl, rfl, rfl, rfl⟩

/-- Claim C6: `WaitTimeout::timeout` maps an explicit `timeout=n` query
parameter (including `n = 0`) to `some (Duration::from_secs n)` and an
absent one to `none`, and every collection-meta handler submits its
operation to the dispatcher exactly once, for every value of the query
(present or absent). -/
theorem timeout_whole_seconds_and_always_submitted
    (n : Nat)
    (submit : CollectionMetaOperations → Option Duration → Except StorageError Bool)
    (doUpdateCollectionCluster :
      String → ClusterOperations → Option Duration → Except StorageError Bool)
    (name : String) (creation : CreateCollection) (update : UpdateCollection)
    (aliases : ChangeAliasesOperation) (cluster : ClusterOperations)
    (query : WaitTimeout) (elapsedMs : Nat) :
    (WaitTimeout.mk (some n)).timeoutDuration = some (Duration.from_secs n) ∧
    (WaitTimeout.mk (some 0)).timeoutDuration = some (Duration.from_secs 0) ∧
    (WaitTimeout.mk none).timeoutDuration = none ∧
    Duration.from_secs n = ⟨n, 0⟩ ∧
    (create_collection submit name creation query elapsedMs).2
      = [(CollectionMetaOperations.createCollection ⟨name, creation⟩,
          query.timeoutDuration)] ∧
    (update_collection submit name update query elapsedMs).2
      = [(CollectionMetaOperations.updateCollection ⟨name, update⟩,
          query.timeoutDuration)] ∧
    (delete_collection submit name query elapsedMs).2
      = [(CollectionMetaOperations.deleteCollection ⟨name⟩, query.timeoutDuration)] ∧
    (update_aliases submit aliases query elapsedMs).2
      = [(CollectionMetaOperations.changeAliases aliases, query.timeoutDuration)] ∧
    (update_collection_cluster doUpdateCollectionCluster name cluster query elapsedMs).2
      = [(name, cluster, query.timeoutDuration)] :=
  ⟨rfl, rfl, rfl, rfl, rfl, rfl, rfl, rfl, rfl⟩

/-- Claim C7 (code bug): a blocking download of a snapshot of a collection
that does not exist makes `do_get_snapshot` panic — the `NotFound` storage
error is converted by `map_err(storage_into_actix_error)` and then fed to
`.unwrap()` instead of being returned, so no structured error body is
produced on this path. -/
theorem blocking_download_missing_collection_panics :
    (do_get_snapshot envMissingCollection "missing_collection" "snap.tar" true).2
      = HandlerOutcome.panicked := rfl

/-- Claim C8 (counterexample): the snapshot file-download endpoints return
the raw `do_get_snapshot` / `do_get_full_snapshot` result with no
`process_response` envelope, so their responses carry no timing field. -/
theorem download_endpoints_no_timing_counterexample :
    hasTiming (get_snapshot envMissingCollection "my_collection" "snap.tar" ⟨some true⟩)
      = false ∧
    hasTiming (get_full_snapshot envMissingCollection "snap.tar" ⟨some true⟩) = false :=
  ⟨rfl, rfl⟩

/-- Claim C8 (amended): every modelled endpoint except the two snapshot
file-download endpoints wraps its result in the `process_response`
envelope, which carries the elapsed-time field; the download endpoints
`get_snapshot` and `get_full_snapshot` return a raw file responder with no
timing field. -/
theorem endpoints_return_timing_field
    (doListSnapshots : String → Bool → Except StorageError (List String))
    (doCreateSnapshot : String → Bool → Except StorageError String)
    (doRecoverFromSnapshot : String → SnapshotRecover → Bool → Except StorageError Bool)
    (doListFullSnapshots : Bool → Except StorageError (List String))
    (doCreateFullSnapshot : Bool → Except StorageError String)
    (doDeleteFullSnapshot : String → Bool → Except StorageError Bool)
    (doDeleteCollectionSnapshot : String → String → Bool → Except StorageError Bool)
    (submit : CollectionMetaOperations → Option Duration → Except StorageError Bool)
    (doUpdateCollectionCluster :
      String → ClusterOperations → Option Duration → Except StorageError Bool)
    (doListCollections : List String)
    (doListAliases : Except StorageError (List String))
    (doGetCollection : String → Except StorageError String)
    (doListCollectionAliases : String → Except StorageError (List String))
    (doGetCollectionCluster : String → Except StorageError String)
    (fsOps : UploadFsOps) (toc : Toc) (env : Env) (c s : String)
    (form : TempFile) (request : SnapshotRecover)
    (params : SnapshottingParam) (uploadParams : SnapshotUploadingParam)
    (creation : CreateCollection) (update : UpdateCollection)
    (aliases : ChangeAliasesOperation) (cluster : ClusterOperations)
    (query : WaitTimeout) (freshUuid : String) (elapsedMs : Nat) :
    hasTiming (list_snapshots doListSnapshots c params elapsedMs) = true ∧
    hasTiming (create_snapshot doCreateSnapshot c params elapsedMs) = true ∧
    hasTiming (upload_snapshot doRecoverFromSnapshot fsOps toc c form uploadParams
      freshUuid elapsedMs).1 = true ∧
    hasTiming (recover_from_snapshot doRecoverFromSnapshot c request params elapsedMs)
      = true ∧
    hasTiming (list_full_snapshots doListFullSnapshots params elapsedMs) = true ∧
    hasTiming (create_full_snapshot doCreateFullSnapshot params elapsedMs) = true ∧
    hasTiming (delete_full_snapshot doDeleteFullSnapshot s params elapsedMs) = true ∧
    hasTiming (delete_collection_snapshot doDeleteCollectionSnapshot c s params
      elapsedMs) = true ∧
    hasTiming (create_collection submit c creation query elapsedMs).1 = true ∧
    hasTiming (update_collection submit c update query elapsedMs).1 = true ∧
    hasTiming (delete_collection submit c query elapsedMs).1 = true ∧
    hasTiming (update_aliases submit aliases query elapsedMs).1 = true ∧
    hasTiming (update_collection_cluster doUpdateCollectionCluster c cluster query
      elapsedMs).1 = true ∧
    hasTiming (get_collections doListCollections elapsedMs) = true ∧
    hasTiming (get_aliases doListAliases elapsedMs) = true ∧
    hasTiming (get_collection doGetCollection c elapsedMs) = true ∧
    hasTiming (get_collection_aliases doListCollectionAliases c elapsedMs) = true ∧
    hasTiming (get_cluster_info doGetCollectionCluster c elapsedMs) = true ∧
    hasTiming (get_snapshot env c s params) = false ∧
    hasTiming (get_full_snapshot env s params) = false := by
  refine ⟨rfl, rfl, ?_, rfl, rfl, rfl, rfl, rfl, rfl, rfl, rfl, rfl, rfl, rfl, rfl,
    rfl, rfl, rfl, rfl, rfl⟩
  cases h : do_save_uploaded_snapshot fsOps toc c form freshUuid <;>
    simp [upload_snapshot, h, process_response, hasTiming]

/-- Claim C9: for every snapshot-download request, the executor task is
spawned first, before the wait flag is consulted (the trace starts with
`spawnTask` for both wait values), and the gateway never sends an abort
signal to the task (`abortTask` never appears in the trace), so a
non-awaited task runs detached. -/
theorem download_spawns_immediately_and_never_aborts
    (env : Env) (c s : String) (w : Bool) :
    (do_get_snapshot env c s w).1.head? = some Event.spawnTask ∧
    Event.abortTask ∉ (do_get_snapshot env c s w).1 ∧
    (do_get_full_snapshot env s w).1.head? = some Event.spawnTask ∧
    Event.abortTask ∉ (do_get_full_snapshot env s w).1 := by
  cases w
  · refine ⟨rfl, ?_, rfl, ?_⟩ <;> simp [do_get_snapshot, do_get_full_snapshot]
  · refine ⟨?_, ?_, ?_, ?_⟩
    · cases hb : getSnapshotTaskBody env c s <;> simp [do_get_snapshot, hb]
    · cases hb : getSnapshotTaskBody env c s <;> simp [do_get_snapshot, hb]
    · cases hb : env.exec.fullSnapshotPath s <;> simp [do_get_full_snapshot, hb]
    · cases hb : env.exec.fullSnapshotPath s <;> simp [do_get_full_snapshot, hb]

/-- Claim C10: the error branches of the `unwrap` calls in
`do_get_snapshot` are reachable: with a nonexistent collection, and with a
collection whose snapshot path cannot be resolved, the spawned task body
panics (`getSnapshotTaskBody = none`) and the wait=true handler, after
`task.await.unwrap()`, panics instead of returning an error response. -/
theorem get_snapshot_unwrap_on_err_reachable :
    getSnapshotTaskBody envMissingCollection "missing_collection" "snap.tar" = none ∧
    (do_get_snapshot envMissingCollection "missing_collection" "snap.tar" true).2
      = HandlerOutcome.panicked ∧
    getSnapshotTaskBody envSnapshotPathError "my_collection" "missing_snapshot" = none ∧
    (do_get_snapshot envSnapshotPathError "my_collection" "missing_snapshot" true).2
      = HandlerOutcome.panicked :=
  ⟨rfl, rfl, rfl, rfl⟩

end Gateway
